import Mathlib

/-
Verification of the resume-chatbot repository: a shallow embedding of
src/app/config/config.py and src/app/core/agent.py, followed by theorems
settling the specified properties.
-/

namespace ResumeChatbot

/-- A configuration source: an ordered association list of key/value pairs.
Models either the process environment variables or the entries of a local
dotenv file read by pydantic-settings. -/
abbrev EnvSource := List (String × String)

/-- Lower-case a string character by character. -/
def lowerStr (s : String) : String :=
  ⟨s.data.map Char.toLower⟩

/-- Case-insensitive lookup of a key in a configuration source, modelling
the `case_sensitive=False` option of `SettingsConfigDict` in config.py:
the first pair whose key matches up to letter case wins.  Keys that match
no declared field are simply never looked up, which models
`extra="ignore"`. -/
def lookupCI (src : EnvSource) (key : String) : Option String :=
  (src.find? (fun p => lowerStr p.fst == lowerStr key)).map Prod.snd

/-- Resolution of one settings field from the two sources read by
pydantic-settings in config.py: environment variables take priority over
the optional `.env` file. -/
def resolveField (env dotenv : EnvSource) (key : String) : Option String :=
  match lookupCI env key with
  | some v => some v
  | none => lookupCI dotenv key

/-- The `Settings` record of config.py: `OLLAMA_BASE_URL` has a default,
`MODEL_NAME` is required (declared with `Field(...)`). -/
structure Settings where
  OLLAMA_BASE_URL : String
  MODEL_NAME : String
deriving Repr, DecidableEq

/-- The default value of `OLLAMA_BASE_URL` declared in config.py line 10. -/
def defaultOllamaBaseUrl : String := "http://localhost:11434/v1"

/-- The error raised when settings construction fails: pydantic raises a
validation error when the required `MODEL_NAME` field cannot be resolved
from any source; the spec names this `ConfigurationError`. -/
inductive ConfigurationError where
  | missingField (field : String)
deriving Repr, DecidableEq

/-- Construction of `Settings()` in config.py: each field is resolved from
the environment and the dotenv file case-insensitively; `OLLAMA_BASE_URL`
falls back to its declared default, while a missing `MODEL_NAME` makes
construction fail. -/
def Settings.load (env dotenv : EnvSource) : Except ConfigurationError Settings :=
  match resolveField env dotenv "MODEL_NAME" with
  | some m =>
      .ok ⟨(resolveField env dotenv "OLLAMA_BASE_URL").getD defaultOllamaBaseUrl, m⟩
  | none => .error (.missingField "MODEL_NAME")

/-- The `get_settings` function of config.py, with its `lru_cache` state made
explicit: the cache is `none` before the first successful call and
`some s` afterwards.  When the cache is filled the sources are not read at
all; `lru_cache` does not memoize a raised error, so on failure the cache
stays empty. -/
def get_settings (env dotenv : EnvSource) (cache : Option Settings) :
    Except ConfigurationError (Settings × Option Settings) :=
  match cache with
  | some s => .ok (s, some s)
  | none =>
      match Settings.load env dotenv with
      | .ok s => .ok (s, some s)
      | .error e => .error e

/-- The `OllamaProvider` client of pydantic-ai as used in agent.py: opaque
except for the base URL it is constructed with. -/
structure OllamaProvider where
  base_url : String
deriving Repr, DecidableEq

/-- The `OpenAIChatModel` handle of pydantic-ai as used in agent.py: opaque
except for the model name and wrapped provider it is constructed with. -/
structure OpenAIChatModel where
  model_name : String
  provider : OllamaProvider
deriving Repr, DecidableEq

/-- A pydantic-ai `Agent` as constructed in agent.py: the shared model
handle plus the optional system prompt it was configured with.  The
two-branch construction in `create_agent` passes the `system_prompt`
keyword only in the first branch, so an agent built by the second branch
carries no system prompt. -/
structure Agent where
  model : OpenAIChatModel
  system_prompt : Option String
deriving Repr, DecidableEq

/-- The `AgentFactory` state of agent.py: `model_name` and
`ollama_base_url` copied from `Settings` in the constructor, and the model
handle built once by `_model_init`. -/
structure AgentFactory where
  model_name : String
  ollama_base_url : String
  model : OpenAIChatModel
deriving Repr, DecidableEq

/-- The body of `AgentFactory._model_init` in agent.py: build the chat
model from the factory fields. -/
def model_init (model_name base_url : String) : OpenAIChatModel :=
  ⟨model_name, ⟨base_url⟩⟩

/-- The `AgentFactory.__init__` constructor of agent.py: copy the two
fields from the module-level `settings` value and build the model handle
once. -/
def AgentFactory.init (s : Settings) : AgentFactory :=
  ⟨s.MODEL_NAME, s.OLLAMA_BASE_URL, model_init s.MODEL_NAME s.OLLAMA_BASE_URL⟩

/-- Python truthiness of the optional `system_prompt` argument: the
condition `if system_prompt:` in agent.py line 62 is false exactly for
`None` and for the empty string. -/
def strOptTruthy : Option String → Bool
  | none => false
  | some s => !(s == "")

/-- The `AgentFactory.create_agent` method of agent.py: when the prompt is
truthy the agent is built with `system_prompt=system_prompt`, otherwise
the agent is built from the model alone. -/
def AgentFactory.create_agent (f : AgentFactory) (system_prompt : Option String) : Agent :=
  if strOptTruthy system_prompt then ⟨f.model, system_prompt⟩
  else ⟨f.model, none⟩

/-- The `AgentFactory._identify_model_provider` method of agent.py: its
body is `pass`, so it returns Python `None` (here `Unit`) and leaves the
factory unchanged.  The pair returned makes both facts visible. -/
def AgentFactory.identify_model_provider (f : AgentFactory) (model_name : String) :
    Unit × AgentFactory :=
  ((), f)

/-- The error surfaced when the remote model endpoint is unreachable,
times out, or answers with malformed output; raised inside the wrapped
`run_sync` call, never constructed by this repository. -/
structure ProviderError where
  message : String
deriving Repr, DecidableEq

/-- The result object returned by a successful `run_sync` call of
pydantic-ai: opaque except for the textual output. -/
structure AgentRunResult where
  output : String
deriving Repr, DecidableEq

/-- The `AgentFactory.test_agent` method of agent.py: build an agent from
the given prompt and hand the message to the synchronous run of the
wrapped library, here an opaque fallible function passed as an argument.
The call result is returned as-is: no branch, no handler, no retry
surrounds it. -/
def AgentFactory.test_agent (f : AgentFactory)
    (run_sync : Agent → String → Except ProviderError AgentRunResult)
    (message : String) (system_prompt : Option String) :
    Except ProviderError AgentRunResult :=
  run_sync (f.create_agent system_prompt) message

/-- The module-level statement `settings = get_settings()` at agent.py
line 16, executed once when the module is imported with an empty cache: a
failure of the settings load makes the import itself fail. -/
def import_agent_module (env dotenv : EnvSource) : Except ConfigurationError Settings :=
  match get_settings env dotenv none with
  | .ok (s, _) => .ok s
  | .error e => .error e

/-- Construction of an `AgentFactory` at some later moment of the process:
the constructor reads only the module-level `settings` value captured
at import time; the ambient environment at construction time is taken as an
argument to record that the constructor performs no read of it. -/
def construct_factory_at (moduleSettings : Settings) (envNow dotenvNow : EnvSource) :
    AgentFactory :=
  AgentFactory.init moduleSettings

/-! ## Theorems -/

/-- C1: for every configuration assignment in which `MODEL_NAME` resolves
to a non-empty value, `get_settings` succeeds and the returned `Settings`
carries exactly that value as its model name; for every assignment in
which `MODEL_NAME` is absent, `get_settings` fails with a
`ConfigurationError`. -/
theorem get_settings_model_name_spec (env dotenv : EnvSource) :
    (∀ v, resolveField env dotenv "MODEL_NAME" = some v → v ≠ "" →
      ∃ s, get_settings env dotenv none = .ok (s, some s) ∧ s.MODEL_NAME = v) ∧
    (resolveField env dotenv "MODEL_NAME" = none →
      get_settings env dotenv none = .error (.missingField "MODEL_NAME")) := by
  constructor
  · intro v hv _
    exact ⟨⟨(resolveField env dotenv "OLLAMA_BASE_URL").getD defaultOllamaBaseUrl, v⟩,
      by simp [get_settings, Settings.load, hv], rfl⟩
  · intro h
    simp [get_settings, Settings.load, h]

/-- Witness for C1 at a concrete environment. -/
theorem get_settings_model_name_spec_witness :
    ∃ s, get_settings [("MODEL_NAME", "llama3")] [] none = .ok (s, some s) ∧
      s.MODEL_NAME = "llama3" :=
  (get_settings_model_name_spec [("MODEL_NAME", "llama3")] []).1 "llama3"
    rfl (by decide)

/-- C2: once a first call to `get_settings` has succeeded and filled the
cache, every later call returns the identical cached `Settings` and leaves
the cache unchanged, whatever the environment and dotenv sources have
become in the meantime. -/
theorem get_settings_memoized (env1 dotenv1 env2 dotenv2 : EnvSource)
    (s : Settings) (c : Option Settings)
    (h : get_settings env1 dotenv1 none = .ok (s, c)) :
    get_settings env2 dotenv2 c = .ok (s, c) := by
  have hc : c = some s := by
    unfold get_settings at h
    cases hl : Settings.load env1 dotenv1 with
    | ok s0 =>
        rw [hl] at h
        simp only [Except.ok.injEq, Prod.mk.injEq] at h
        rw [← h.2, h.1]
    | error e => rw [hl] at h; exact absurd h (by simp)
  subst hc
  rfl

/-- Witness for C2: a successful first call with `MODEL_NAME` set, then a
second call against an emptied environment still returns the cached
instance. -/
theorem get_settings_memoized_witness :
    get_settings [] [] (some ⟨defaultOllamaBaseUrl, "llama3"⟩) =
      .ok (⟨defaultOllamaBaseUrl, "llama3"⟩, some ⟨defaultOllamaBaseUrl, "llama3"⟩) :=
  get_settings_memoized [("MODEL_NAME", "llama3")] [] [] []
    ⟨defaultOllamaBaseUrl, "llama3"⟩ (some ⟨defaultOllamaBaseUrl, "llama3"⟩) rfl

/-- C3: every agent produced by any sequence of `create_agent` calls on a
constructed factory references the factory's single shared model handle,
and therefore carries the factory's model name and base URL. -/
theorem create_agent_shares_model (st : Settings) (prompts : List (Option String))
    (a : Agent) (ha : a ∈ prompts.map (AgentFactory.init st).create_agent) :
    a.model = (AgentFactory.init st).model ∧
    a.model.model_name = (AgentFactory.init st).model_name ∧
    a.model.provider.base_url = (AgentFactory.init st).ollama_base_url := by
  obtain ⟨p, _, rfl⟩ := List.mem_map.mp ha
  unfold AgentFactory.create_agent
  split <;> exact ⟨rfl, rfl, rfl⟩

/-- Witness for C3: a concrete agent from a concrete sequence of calls. -/
theorem create_agent_shares_model_witness :
    ((AgentFactory.init ⟨"http://localhost:11434/v1", "llama3"⟩).create_agent
        (some "Be concise")).model =
      (AgentFactory.init ⟨"http://localhost:11434/v1", "llama3"⟩).model ∧
    ((AgentFactory.init ⟨"http://localhost:11434/v1", "llama3"⟩).create_agent
        (some "Be concise")).model.model_name =
      (AgentFactory.init ⟨"http://localhost:11434/v1", "llama3"⟩).model_name ∧
    ((AgentFactory.init ⟨"http://localhost:11434/v1", "llama3"⟩).create_agent
        (some "Be concise")).model.provider.base_url =
      (AgentFactory.init ⟨"http://localhost:11434/v1", "llama3"⟩).ollama_base_url :=
  create_agent_shares_model ⟨"http://localhost:11434/v1", "llama3"⟩
    [none, some "Be concise"] _ (by decide)

/-- C4: `create_agent` with no argument yields an agent carrying no system
prompt; with a non-empty string it yields an agent configured with exactly
that prompt; the two outcomes differ on the agent's `system_prompt`
field. -/
theorem create_agent_system_prompt (f : AgentFactory) (x : String) (hx : x ≠ "") :
    (f.create_agent none).system_prompt = none ∧
    (f.create_agent (some x)).system_prompt = some x ∧
    (f.create_agent (some x)).system_prompt ≠ (f.create_agent none).system_prompt := by
  refine ⟨rfl, ?_, ?_⟩ <;> simp [AgentFactory.create_agent, strOptTruthy, hx]

/-- Witness for C4 at a concrete factory and prompt. -/
theorem create_agent_system_prompt_witness :
    ((AgentFactory.init ⟨"u", "m"⟩).create_agent none).system_prompt = none ∧
    ((AgentFactory.init ⟨"u", "m"⟩).create_agent (some "X")).system_prompt = some "X" ∧
    ((AgentFactory.init ⟨"u", "m"⟩).create_agent (some "X")).system_prompt ≠
      ((AgentFactory.init ⟨"u", "m"⟩).create_agent none).system_prompt :=
  create_agent_system_prompt (AgentFactory.init ⟨"u", "m"⟩) "X" (by decide)

/-- C5: with `MODEL_NAME` set to `llama3` and `OLLAMA_BASE_URL` unset,
`get_settings` returns a `Settings` whose model name is `llama3` and whose
base URL is the declared default. -/
theorem get_settings_default_base_url :
    get_settings [("MODEL_NAME", "llama3")] [] none =
      .ok (⟨"http://localhost:11434/v1", "llama3"⟩,
        some ⟨"http://localhost:11434/v1", "llama3"⟩) :=
  rfl

/-- C6: when the synchronous run of the wrapped library fails,
`test_agent` propagates that very failure to the caller: the method is the
run call itself on the freshly created agent, so the error comes back
unchanged, unretried and unreplaced. -/
theorem test_agent_propagates_failure (f : AgentFactory)
    (run_sync : Agent → String → Except ProviderError AgentRunResult)
    (message : String) (sp : Option String) (e : ProviderError)
    (h : run_sync (f.create_agent sp) message = .error e) :
    f.test_agent run_sync message sp = .error e ∧
    f.test_agent run_sync message sp = run_sync (f.create_agent sp) message :=
  ⟨h, rfl⟩

/-- Witness for C6: a run function modelling an unreachable endpoint. -/
theorem test_agent_propagates_failure_witness :
    (AgentFactory.init ⟨"u", "m"⟩).test_agent
        (fun _ _ => .error ⟨"endpoint unreachable"⟩) "Hello" (some "Be concise") =
      .error ⟨"endpoint unreachable"⟩ ∧
    (AgentFactory.init ⟨"u", "m"⟩).test_agent
        (fun _ _ => .error ⟨"endpoint unreachable"⟩) "Hello" (some "Be concise") =
      (fun (_ : Agent) (_ : String) =>
          (.error ⟨"endpoint unreachable"⟩ : Except ProviderError AgentRunResult))
        ((AgentFactory.init ⟨"u", "m"⟩).create_agent (some "Be concise")) "Hello" :=
  test_agent_propagates_failure (AgentFactory.init ⟨"u", "m"⟩)
    (fun _ _ => .error ⟨"endpoint unreachable"⟩) "Hello" (some "Be concise")
    ⟨"endpoint unreachable"⟩ rfl

/-- C7: construction is atomic: when the module-level settings load
succeeds, the factory exists in its single state with both fields copied
from `Settings` and the model handle built once from them; when the load
fails, the very error it raised propagates and no factory value exists. -/
theorem factory_construction_atomic (env dotenv : EnvSource) :
    (∀ s, import_agent_module env dotenv = .ok s →
      (AgentFactory.init s).model_name = s.MODEL_NAME ∧
      (AgentFactory.init s).ollama_base_url = s.OLLAMA_BASE_URL ∧
      (AgentFactory.init s).model = model_init s.MODEL_NAME s.OLLAMA_BASE_URL) ∧
    (∀ e, Settings.load env dotenv = .error e →
      import_agent_module env dotenv = .error e) := by
  constructor
  · intro s _
    exact ⟨rfl, rfl, rfl⟩
  · intro e he
    simp [import_agent_module, get_settings, he]

/-- Witness for C7: the success branch at a concrete environment and the
failure branch at the empty environment. -/
theorem factory_construction_atomic_witness :
    ((AgentFactory.init ⟨defaultOllamaBaseUrl, "llama3"⟩).model_name =
        Settings.MODEL_NAME ⟨defaultOllamaBaseUrl, "llama3"⟩ ∧
      (AgentFactory.init ⟨defaultOllamaBaseUrl, "llama3"⟩).ollama_base_url =
        Settings.OLLAMA_BASE_URL ⟨defaultOllamaBaseUrl, "llama3"⟩ ∧
      (AgentFactory.init ⟨defaultOllamaBaseUrl, "llama3"⟩).model =
        model_init "llama3" defaultOllamaBaseUrl) ∧
    import_agent_module [] [] = .error (.missingField "MODEL_NAME") :=
  ⟨(factory_construction_atomic [("MODEL_NAME", "llama3")] []).1
      ⟨defaultOllamaBaseUrl, "llama3"⟩ rfl,
    (factory_construction_atomic [] []).2 (.missingField "MODEL_NAME") rfl⟩

/-- C8: the provider-detection stub performs no action and returns
nothing: for every input model name it yields Python `None` and leaves the
factory exactly as it was. -/
theorem identify_model_provider_noop (f : AgentFactory) (model_name : String) :
    f.identify_model_provider model_name = ((), f) :=
  rfl

/-- C9: the empty string is falsy in the prompt test, so
`create_agent ""` takes the same branch as `create_agent None` and returns
an agent with no system prompt. -/
theorem create_agent_empty_prompt (f : AgentFactory) :
    f.create_agent (some "") = f.create_agent none ∧
    (f.create_agent (some "")).system_prompt = none := by
  constructor <;> rfl

/-- C10: the settings are resolved once at module import, before any
factory is constructed; factories constructed at any later moments, under
arbitrarily changed environments, all read the captured module settings
and therefore carry the identical model name / base URL pair. -/
theorem factories_share_settings (env0 dotenv0 : EnvSource) (s : Settings)
    (h : import_agent_module env0 dotenv0 = .ok s)
    (env1 dotenv1 env2 dotenv2 : EnvSource) :
    (construct_factory_at s env1 dotenv1).model_name =
      (construct_factory_at s env2 dotenv2).model_name ∧
    (construct_factory_at s env1 dotenv1).ollama_base_url =
      (construct_factory_at s env2 dotenv2).ollama_base_url ∧
    (construct_factory_at s env1 dotenv1).model_name = s.MODEL_NAME ∧
    (construct_factory_at s env1 dotenv1).ollama_base_url = s.OLLAMA_BASE_URL :=
  ⟨rfl, rfl, rfl, rfl⟩

/-- Witness for C10: import with `MODEL_NAME` set, then two constructions
under changed environments. -/
theorem factories_share_settings_witness :
    (construct_factory_at ⟨defaultOllamaBaseUrl, "llama3"⟩ [] []).model_name =
      (construct_factory_at ⟨defaultOllamaBaseUrl, "llama3"⟩
        [("MODEL_NAME", "mistral")] []).model_name ∧
    (construct_factory_at ⟨defaultOllamaBaseUrl, "llama3"⟩ [] []).ollama_base_url =
      (construct_factory_at ⟨defaultOllamaBaseUrl, "llama3"⟩
        [("MODEL_NAME", "mistral")] []).ollama_base_url ∧
    (construct_factory_at ⟨defaultOllamaBaseUrl, "llama3"⟩ [] []).model_name =
      Settings.MODEL_NAME ⟨defaultOllamaBaseUrl, "llama3"⟩ ∧
    (construct_factory_at ⟨defaultOllamaBaseUrl, "llama3"⟩ [] []).ollama_base_url =
      Settings.OLLAMA_BASE_URL ⟨defaultOllamaBaseUrl, "llama3"⟩ :=
  factories_share_settings [("MODEL_NAME", "llama3")] []
    ⟨defaultOllamaBaseUrl, "llama3"⟩ rfl [] [] [("MODEL_NAME", "mistral")] []

end ResumeChatbot
